import Mathlib

/-!
Shallow embedding of the AutoDS self-correcting execution loop
(src/core/orchestrator.py, src/core/code_executor.py,
src/core/state_manager.py, src/agents/ds_agent.py).

External effects (the LLM agent calls, the subprocess spawn, the
filesystem reads and writes) are modelled as oracle functions supplied
to the pure transition functions; each oracle consumes a monotone call
counter, so any concrete run of the Python code corresponds to some
choice of oracles.  DataFrames are an abstract type parameter `DF`.
-/

namespace AutoDS

/-- Result dictionary returned by `CodeExecutor.execute_code`: either
`{'status': 'success', 'dataframe': ..., 'stdout': ...}` or
`{'status': 'error', 'traceback': ..., 'returncode': ...}` (the
`returncode` key is absent, `none`, for host-side faults). -/
inductive ExecResult (DF : Type) where
  | success (dataframe : DF) (stdout : String)
  | error (traceback : String) (returncode : Option Int)
deriving DecidableEq

namespace ExecResult

def isSuccess {DF : Type} : ExecResult DF → Bool
  | .success _ _ => true
  | .error _ _ => false

end ExecResult

/-- Terminal status recorded in an execution-log entry. -/
inductive Status where
  | success
  | failed
deriving DecidableEq

/-- One entry of `Orchestrator.execution_log`.  The four constructors
are the four `self.execution_log.append(...)` sites of
`Orchestrator.run_plan` (orchestrator.py lines 77, 94, 115, 162). -/
inductive LogEntry where
  | genFailed (task_id : Int) (task : String) (error : String)
  | noDataFrame (task_id : Int) (task : String)
  | success (task_id : Int) (task : String) (code : String) (attempt : Nat)
  | execFailed (task_id : Int) (task : String) (code : String) (error : String)
      (attempts : Nat)
deriving DecidableEq

namespace LogEntry

/-- The `'status'` key of the entry dictionary. -/
def status : LogEntry → Status
  | .success _ _ _ _ => .success
  | _ => .failed

/-- The `'stage'` key of the entry dictionary, when present. -/
def stage : LogEntry → Option String
  | .genFailed _ _ _ => some "code_generation"
  | .noDataFrame _ _ => some "execution"
  | _ => none

/-- The recorded attempt count, when the entry has one: the
`'attempt'` key of a success entry, the `'attempts'` key of an
exhausted-failure entry.  Entries appended on code-generation failure
or on a missing DataFrame carry neither key. -/
def attemptsUsed : LogEntry → Option Nat
  | .success _ _ _ a => some a
  | .execFailed _ _ _ _ n => some n
  | _ => none

end LogEntry

/-- One element of a plan: the dictionary `{'id': ..., 'task': ...}`. -/
structure TaskItem where
  id : Int
  task : String
deriving DecidableEq

/-- Mutable state of the orchestrator visible to `run_plan`: the
StateManager's DataFrame (`self.df`, orchestrator-side
`self.state_manager`), the accumulated `self.execution_log`, and call
counters instrumenting how many times each external collaborator has
been invoked (`execCount` counts `self.code_executor.execute_code`
calls, i.e. subprocess spawns). -/
structure OrchState (DF : Type) where
  df : Option DF
  log : List LogEntry
  execCount : Nat
  genCount : Nat
  fixCount : Nat
deriving DecidableEq

/-- Oracles for the three external collaborators used by `run_plan`.
Each is indexed by the corresponding call counter, so successive calls
may behave differently (the producers are nondeterministic).
`Except.error` models a raised exception. -/
structure AgentEnv (DF : Type) where
  generate_code : Nat → String → Except String String
  fix_code : Nat → String → String → Except String String
  execute_code : Nat → String → DF → ExecResult DF

namespace Orchestrator

variable {DF : Type}

/-- The `for attempt in range(3)` retry loop of `Orchestrator.run_plan`
(orchestrator.py lines 87-169).  `fuel` is the number of loop
iterations remaining; the loop is entered with `fuel = 3`,
`attempt = 0`, and `attempt + fuel = 3` throughout. -/
def attemptLoop (env : AgentEnv DF) (t : TaskItem) :
    Nat → Nat → String → OrchState DF → OrchState DF
  | 0, _, _, st => st
  | fuel + 1, attempt, code_string, st =>
    match st.df with
    | none =>
        { st with log := st.log ++ [.noDataFrame t.id t.task] }
    | some current_df =>
        let result := env.execute_code st.execCount code_string current_df
        let st1 : OrchState DF := { st with execCount := st.execCount + 1 }
        match result with
        | .success new_df _ =>
            { st1 with df := some new_df,
                       log := st1.log ++ [.success t.id t.task code_string (attempt + 1)] }
        | .error error_traceback _ =>
            let next : String × OrchState DF :=
              if attempt < 2 then
                match env.fix_code st1.fixCount code_string error_traceback with
                | .ok fixed_code => (fixed_code, { st1 with fixCount := st1.fixCount + 1 })
                | .error _ => (code_string, { st1 with fixCount := st1.fixCount + 1 })
              else (code_string, st1)
            if attempt = 2 then
              { next.2 with
                  log := next.2.log ++
                    [.execFailed t.id t.task next.1 error_traceback 3] }
            else
              attemptLoop env t fuel (attempt + 1) next.1 next.2

/-- The body of `run_plan`'s outer `for task_item in plan` loop
(orchestrator.py lines 53-169): generate code for the task, then run
the retry loop; a raised exception in `generate_code` appends a
`stage = 'code_generation'` entry and skips to the next task. -/
def runTask (env : AgentEnv DF) (st : OrchState DF) (task_item : TaskItem) :
    OrchState DF :=
  match env.generate_code st.genCount task_item.task with
  | .error e =>
      { st with genCount := st.genCount + 1,
                log := st.log ++
                  [.genFailed task_item.id task_item.task
                    ("Error generating code: " ++ e)] }
  | .ok code_string =>
      attemptLoop env task_item 3 0 code_string
        { st with genCount := st.genCount + 1 }

/-- `Orchestrator.run_plan` over a whole plan: the tasks are processed
strictly in order, each one starting from the state the previous one
left (orchestrator.py lines 36-180); the returned execution log is the
final `log` field. -/
def run_plan (env : AgentEnv DF) (st : OrchState DF) (plan : List TaskItem) :
    OrchState DF :=
  plan.foldl (runTask env) st

end Orchestrator

namespace CodeExecutor

/-- Observable behaviour of one `subprocess.run` invocation
(code_executor.py lines 82-87): exit code, captured streams, and the
CSV text the child wrote to `output.csv`, if it wrote one
(`none` means the file was left untouched). -/
structure SubRun where
  returncode : Int
  stdout : String
  stderr : String
  writesOutput : Option String
deriving DecidableEq

/-- The executor's temporary directory (code_executor.py lines 30-32):
contents of `input.csv`, `output.csv` and `_temp_script.py`, each
`none` when the file does not exist. -/
structure TempFS where
  inputFile : Option String
  outputFile : Option String
  scriptFile : Option String
deriving DecidableEq

/-- Oracles for the host-side effects of `execute_code`:
`to_csv` serialises the input DataFrame (may raise), `write_script`
writes the driver script (may raise), `run_subprocess` spawns the
child process (may raise), `read_csv` deserialises CSV text back into
a DataFrame (may raise), and `format_exc` models
`traceback.format_exc()` for a raised exception's message. -/
structure HostEnv (DF : Type) where
  to_csv : DF → Except String String
  write_script : String → Except String Unit
  run_subprocess : String → Except String SubRun
  read_csv : String → Except String DF
  format_exc : String → String

variable {DF : Type}

/-- The driver script composed by `execute_code`
(code_executor.py lines 54-75), with the two CSV paths interpolated. -/
def fullScript (inputPath outputPath code_string : String) : String :=
  "\n# Import necessary libraries\nimport pandas as pd\n\n# Load the input data\ndf = pd.read_csv(r\"" ++ inputPath ++ "\")\n\n# Define the transformation function\n" ++ code_string ++ "\n\n# Apply the transformation\ntry:\n    df = transform_data(df)\n    # Save the result\n    df.to_csv(r\"" ++ outputPath ++ "\", index=False)\n    print(\"Transformation completed successfully\")\nexcept Exception as e:\n    import traceback\n    print(f\"Error during transformation: " ++ "\x7bstr(e)\x7d\")\n    print(traceback.format_exc())\n    exit(1)\n"

/-- The error dictionary built by the outer `except` clause of
`execute_code` (code_executor.py lines 106-112): a host-side fault is
returned, not raised, with the exception message and traceback in the
`'traceback'` value and no `'returncode'` key. -/
def procError (env : HostEnv DF) (msg : String) : ExecResult DF :=
  .error ("Error in code execution process: " ++ msg ++ "\n" ++ env.format_exc msg) none

/-- `CodeExecutor.execute_code` (code_executor.py lines 36-112) as a
state transformer on the temp directory: serialise the input, write
the driver script, spawn the subprocess, then classify — exit code 0
and an existing `output.csv` give success with the deserialised file;
anything else gives an error whose traceback is the captured stderr,
or stdout when stderr is empty.  Any host-side fault short-circuits to
`procError`. -/
def execute_code (env : HostEnv DF) (fs : TempFS)
    (code_string : String) (input_df : DF) : ExecResult DF × TempFS :=
  match env.to_csv input_df with
  | .error e => (procError env e, fs)
  | .ok csvText =>
    let fs1 : TempFS := { fs with inputFile := some csvText }
    let script := fullScript "input.csv" "output.csv" code_string
    match env.write_script script with
    | .error e => (procError env e, fs1)
    | .ok _ =>
      let fs2 : TempFS := { fs1 with scriptFile := some script }
      match env.run_subprocess script with
      | .error e => (procError env e, fs2)
      | .ok r =>
        let fs3 : TempFS :=
          match r.writesOutput with
          | some outText => { fs2 with outputFile := some outText }
          | none => fs2
        if r.returncode = 0 then
          match fs3.outputFile with
          | some content =>
              (match env.read_csv content with
               | .ok output_df => (.success output_df r.stdout, fs3)
               | .error e => (procError env e, fs3))
          | none =>
              (.error (if r.stderr = "" then r.stdout else r.stderr)
                 (some r.returncode), fs3)
        else
          (.error (if r.stderr = "" then r.stdout else r.stderr)
             (some r.returncode), fs3)

/-- `CodeExecutor.cleanup` (code_executor.py lines 114-132): each of
the three temp files is removed if it exists. -/
def cleanup (_fs : TempFS) : TempFS :=
  { inputFile := none, outputFile := none, scriptFile := none }

/-- The message of the first host-side fault `execute_code` runs into
on the given inputs, if any, following the source's step order; the
deserialisation step is reached only when the classification check
(exit code 0 and `output.csv` present) passes. -/
def firstFault (env : HostEnv DF) (fs : TempFS)
    (code_string : String) (input_df : DF) : Option String :=
  match env.to_csv input_df with
  | .error e => some e
  | .ok _ =>
    let script := fullScript "input.csv" "output.csv" code_string
    match env.write_script script with
    | .error e => some e
    | .ok _ =>
      match env.run_subprocess script with
      | .error e => some e
      | .ok r =>
        let outAfter : Option String :=
          match r.writesOutput with
          | some outText => some outText
          | none => fs.outputFile
        if r.returncode = 0 then
          match outAfter with
          | some content =>
              (match env.read_csv content with
               | .ok _ => none
               | .error e => some e)
          | none => none
        else none

end CodeExecutor

namespace DsAgent

/-- A JSON scalar as it appears in a parsed plan step's values. -/
inductive JVal where
  | num (n : Int)
  | str (s : String)
  | other
deriving DecidableEq

/-- A parsed plan step: the `'id'` and `'task'` values when the
corresponding key is present (`none` models a missing key).  This is
what `json.loads` hands to the validation loop of `generate_plan`
(ds_agent.py lines 66-73). -/
structure RawStep where
  id : Option JVal
  task : Option JVal
deriving DecidableEq

/-- Rendering of a step used in the `ValueError` message
`Invalid step format in plan: ...` (models Python's `str(step)`). -/
def stepRepr (s : RawStep) : String :=
  let jv : Option JVal → String := fun v =>
    match v with
    | some (.num n) => toString n
    | some (.str t) => "\"" ++ t ++ "\""
    | some .other => "..."
    | none => "<missing>"
  "\x7bid: " ++ jv s.id ++ ", task: " ++ jv s.task ++ "\x7d"

/-- The first step of the parsed plan that lacks an `'id'` or a
`'task'` key — the step at which the validation loop of
`generate_plan` raises `ValueError` (ds_agent.py lines 69-71). -/
def firstInvalid : List RawStep → Option RawStep
  | [] => none
  | s :: rest =>
      if s.id.isSome && s.task.isSome then firstInvalid rest else some s

/-- Fallback plan returned on `json.JSONDecodeError`
(ds_agent.py lines 75-80). -/
def fallbackJson : List RawStep :=
  [⟨some (.num 1),
    some (.str "Error generating plan. Please check the data profile and try again.")⟩]

/-- Fallback plan returned by the generic `except` clause
(ds_agent.py lines 82-87), with the exception message interpolated. -/
def fallbackExc (msg : String) : List RawStep :=
  [⟨some (.num 1), some (.str ("Error generating plan: " ++ msg))⟩]

/-- `ds_agent.generate_plan` (ds_agent.py lines 50-87), with the API
call and the JSON parse as oracles: `api` is the chat-completion call
plus content extraction (`Except.error` = raised exception),
`parseJson` is `json.loads` on the returned text.  A parse error gives
the JSON fallback; a raised API exception or a step missing one of the
two keys gives the generic fallback; otherwise the parsed plan is
returned unchanged. -/
def generate_plan (api : Except String String)
    (parseJson : String → Except String (List RawStep)) : List RawStep :=
  match api with
  | .error e => fallbackExc e
  | .ok content =>
    match parseJson content with
    | .error _ => fallbackJson
    | .ok plan =>
      match firstInvalid plan with
      | some s => fallbackExc ("Invalid step format in plan: " ++ stepRepr s)
      | none => plan

end DsAgent

/-! Helper lemmas about the orchestrator loop. -/

namespace Orchestrator

variable {DF : Type}

/-- Well-formedness of a single ledger entry's recorded attempt count:
whenever the entry records one, it lies in `[1, 3]`, and a failed
entry records exactly 3. -/
def entryAttemptsOk (e : LogEntry) : Prop :=
  ∀ m, e.attemptsUsed = some m → 1 ≤ m ∧ m ≤ 3 ∧ (e.status = .failed → m = 3)

/-- The retry loop, entered with `attempt + fuel = 3` and at least one
iteration left, appends exactly one ledger entry; the DataFrame is
unchanged unless that entry is a success; and the entry's recorded
attempt count (if any) is well-formed. -/
theorem attemptLoop_appends_one (env : AgentEnv DF) (t : TaskItem) :
    ∀ fuel attempt code st, attempt + fuel = 3 → 1 ≤ fuel →
    ∃ e : LogEntry,
      (attemptLoop env t fuel attempt code st).log = st.log ++ [e] ∧
      ((attemptLoop env t fuel attempt code st).df = st.df ∨ e.status = .success) ∧
      entryAttemptsOk e := by
  intro fuel
  induction fuel with
  | zero => intro attempt code st _ h1; omega
  | succ n ih =>
    intro attempt code st hsum _
    rcases hdf : st.df with _ | d
    · refine ⟨.noDataFrame t.id t.task, ?_, ?_, ?_⟩
      · simp [attemptLoop, hdf]
      · left; simp [attemptLoop, hdf]
      · intro m hm; simp [LogEntry.attemptsUsed] at hm
    · rcases hres : env.execute_code st.execCount code d with ⟨ndf, out⟩ | ⟨tb, rc⟩
      · refine ⟨.success t.id t.task code (attempt + 1), ?_, ?_, ?_⟩
        · simp [attemptLoop, hdf, hres]
        · right; rfl
        · intro m hm
          simp [LogEntry.attemptsUsed] at hm
          subst hm
          refine ⟨Nat.succ_le_succ (Nat.zero_le _), by omega, ?_⟩
          intro hc; simp [LogEntry.status] at hc
      · by_cases hatt : attempt = 2
        · subst hatt
          rcases hfix : env.fix_code st.fixCount code tb with msg | fixed
          all_goals
            refine ⟨.execFailed t.id t.task code tb 3, ?_, ?_, ?_⟩
          · simp [attemptLoop, hdf, hres, hfix]
          · left; simp [attemptLoop, hdf, hres, hfix]
          · intro m hm; simp [LogEntry.attemptsUsed] at hm; omega
          · simp [attemptLoop, hdf, hres, hfix]
          · left; simp [attemptLoop, hdf, hres, hfix]
          · intro m hm; simp [LogEntry.attemptsUsed] at hm; omega
        · have hlt : attempt < 2 := by omega
          have hn : 1 ≤ n := by omega
          have hsum2 : (attempt + 1) + n = 3 := by omega
          rcases hfix : env.fix_code st.fixCount code tb with msg | fixed
          · have hstep : attemptLoop env t (n + 1) attempt code st =
                attemptLoop env t n (attempt + 1) code
                  { df := some d, log := st.log, execCount := st.execCount + 1,
                    genCount := st.genCount, fixCount := st.fixCount + 1 } := by
              simp [attemptLoop, hdf, hres, hfix, hlt, hatt]
            rw [hstep]
            rcases ih (attempt + 1) code
                { df := some d, log := st.log, execCount := st.execCount + 1,
                  genCount := st.genCount, fixCount := st.fixCount + 1 } hsum2 hn with
              ⟨e, hlog, hdf2, hok⟩
            exact ⟨e, hlog, hdf2, hok⟩
          · have hstep : attemptLoop env t (n + 1) attempt code st =
                attemptLoop env t n (attempt + 1) fixed
                  { df := some d, log := st.log, execCount := st.execCount + 1,
                    genCount := st.genCount, fixCount := st.fixCount + 1 } := by
              simp [attemptLoop, hdf, hres, hfix, hlt, hatt]
            rw [hstep]
            rcases ih (attempt + 1) fixed
                { df := some d, log := st.log, execCount := st.execCount + 1,
                  genCount := st.genCount, fixCount := st.fixCount + 1 } hsum2 hn with
              ⟨e, hlog, hdf2, hok⟩
            exact ⟨e, hlog, hdf2, hok⟩

/-- Processing one task appends exactly one ledger entry, leaves the
DataFrame unchanged unless that entry is a success, and any recorded
attempt count is well-formed. -/
theorem runTask_appends_one (env : AgentEnv DF) (st : OrchState DF) (t : TaskItem) :
    ∃ e : LogEntry,
      (runTask env st t).log = st.log ++ [e] ∧
      ((runTask env st t).df = st.df ∨ e.status = .success) ∧
      entryAttemptsOk e := by
  rcases hgen : env.generate_code st.genCount t.task with msg | code
  · refine ⟨.genFailed t.id t.task ("Error generating code: " ++ msg), ?_, ?_, ?_⟩
    · simp [runTask, hgen]
    · left; simp [runTask, hgen]
    · intro m hm; simp [LogEntry.attemptsUsed] at hm
  · have h := attemptLoop_appends_one env t 3 0 code
      { st with genCount := st.genCount + 1 } rfl (by omega)
    rcases h with ⟨e, hlog, hdf, hok⟩
    refine ⟨e, ?_, ?_, hok⟩
    · simpa [runTask, hgen] using hlog
    · rcases hdf with hdf | hdf
      · left; simpa [runTask, hgen] using hdf
      · right; exact hdf

/-- `run_plan` on a cons: the head task is processed first, then the
rest of the plan from the state it left. -/
theorem run_plan_cons (env : AgentEnv DF) (st : OrchState DF)
    (t : TaskItem) (rest : List TaskItem) :
    run_plan env st (t :: rest) = run_plan env (runTask env st t) rest := rfl

/-- The execution log only grows: every entry of the final log is
either an entry the state already had or an entry appended by one of
the plan's tasks, and the appended ones have well-formed attempt
counts. -/
theorem run_plan_entries (env : AgentEnv DF) :
    ∀ (plan : List TaskItem) (st : OrchState DF) (e : LogEntry),
      e ∈ (run_plan env st plan).log → e ∈ st.log ∨ entryAttemptsOk e := by
  intro plan
  induction plan with
  | nil => intro st e he; exact Or.inl he
  | cons t rest ih =>
    intro st e he
    rw [run_plan_cons] at he
    rcases ih (runTask env st t) e he with hmem | hok
    · rcases runTask_appends_one env st t with ⟨e0, hlog, _, hok0⟩
      rw [hlog, List.mem_append, List.mem_singleton] at hmem
      rcases hmem with hmem | rfl
      · exact Or.inl hmem
      · exact Or.inr hok0
    · exact Or.inr hok

/-- Each task of the plan contributes exactly one ledger entry. -/
theorem run_plan_log_length (env : AgentEnv DF) :
    ∀ (plan : List TaskItem) (st : OrchState DF),
      (run_plan env st plan).log.length = st.log.length + plan.length := by
  intro plan
  induction plan with
  | nil => intro st; simp [run_plan]
  | cons t rest ih =>
    intro st
    rw [run_plan_cons, ih (runTask env st t)]
    rcases runTask_appends_one env st t with ⟨e0, hlog, _, _⟩
    rw [hlog]
    simp [List.length_append]
    omega

/-- One failing, non-final iteration of the retry loop: whatever the
repair call returns, the loop moves on to the next attempt with some
candidate code, having spawned one more subprocess and made one more
repair call, and with the DataFrame and the log untouched. -/
theorem attemptLoop_retry (env : AgentEnv DF) (t : TaskItem)
    (fuel attempt : Nat) (code : String) (st : OrchState DF) (d : DF)
    (tb : String) (rc : Option Int)
    (hlt : attempt < 2) (hdf : st.df = some d)
    (hres : env.execute_code st.execCount code d = .error tb rc) :
    ∃ code2 : String,
      attemptLoop env t (fuel + 1) attempt code st =
        attemptLoop env t fuel (attempt + 1) code2
          { df := some d, log := st.log, execCount := st.execCount + 1,
            genCount := st.genCount, fixCount := st.fixCount + 1 } := by
  have hatt : attempt ≠ 2 := by omega
  rcases hfix : env.fix_code st.fixCount code tb with msg | fixed
  · exact ⟨code, by simp [attemptLoop, hdf, hres, hfix, hlt, hatt]⟩
  · exact ⟨fixed, by simp [attemptLoop, hdf, hres, hfix, hlt, hatt]⟩

/-- The final allowed attempt (attempt index 2) failing: the loop
appends the exhausted-failure entry, with `attempts = 3`, the code and
the error of that last attempt, and leaves the DataFrame unchanged. -/
theorem attemptLoop_final_fail (env : AgentEnv DF) (t : TaskItem)
    (fuel : Nat) (code : String) (st : OrchState DF) (d : DF)
    (tb : String) (rc : Option Int)
    (hdf : st.df = some d)
    (hres : env.execute_code st.execCount code d = .error tb rc) :
    attemptLoop env t (fuel + 1) 2 code st =
      { df := some d, log := st.log ++ [.execFailed t.id t.task code tb 3],
        execCount := st.execCount + 1, genCount := st.genCount,
        fixCount := st.fixCount } := by
  simp [attemptLoop, hdf, hres]

end Orchestrator

/-! Helper lemmas about the isolated executor. -/

namespace CodeExecutor

variable {DF : Type}

/-- Contents of `output.csv` after the subprocess has run: what the
child wrote, or what was already there when it wrote nothing. -/
def outputAfter (fs : TempFS) (r : SubRun) : Option String :=
  match r.writesOutput with
  | some outText => some outText
  | none => fs.outputFile

/-- `execute_code` never removes the output artifact: once
`output.csv` exists, it still exists after any invocation. -/
theorem execute_code_preserves_output (env : HostEnv DF) (fs : TempFS)
    (code_string : String) (input_df : DF)
    (h : fs.outputFile.isSome) :
    ((execute_code env fs code_string input_df).2.outputFile).isSome := by
  rcases h1 : env.to_csv input_df with e | csv
  · simpa [execute_code, h1] using h
  rcases h2 : env.write_script (fullScript "input.csv" "output.csv" code_string)
    with e | u
  · simpa [execute_code, h1, h2] using h
  rcases h3 : env.run_subprocess (fullScript "input.csv" "output.csv" code_string)
    with e | r
  · simpa [execute_code, h1, h2, h3] using h
  rcases hw : r.writesOutput with _ | o
  · by_cases hrc : r.returncode = 0
    · rcases hout : fs.outputFile with _ | content
      · rw [hout] at h; cases h
      · rcases hread : env.read_csv content with e | df2 <;>
          simp [execute_code, h1, h2, h3, hw, hrc, hout, hread]
    · simpa [execute_code, h1, h2, h3, hw, hrc] using h
  · by_cases hrc : r.returncode = 0
    · rcases hread : env.read_csv o with e | df2 <;>
        simp [execute_code, h1, h2, h3, hw, hrc, hread]
    · simp [execute_code, h1, h2, h3, hw, hrc]

end CodeExecutor

/-! Claim theorems about the isolated executor. -/

open CodeExecutor

/-- Claim C5: with the host-side steps succeeding and the artifact
deserialisable, `execute_code` classifies the outcome as success
exactly when the subprocess exited 0 and `output.csv` exists, in which
case the snapshot is the deserialised artifact; otherwise it returns
an error whose text is the captured stderr, falling back to stdout
when stderr is empty. -/
theorem C5_outcome_classification {DF : Type} (env : HostEnv DF) (fs : TempFS)
    (code_string : String) (input_df : DF) (csv : String) (r : SubRun)
    (h1 : env.to_csv input_df = .ok csv)
    (h2 : env.write_script (fullScript "input.csv" "output.csv" code_string) = .ok ())
    (h3 : env.run_subprocess (fullScript "input.csv" "output.csv" code_string) = .ok r)
    (hread : ∀ c, outputAfter fs r = some c → ∃ df2, env.read_csv c = .ok df2) :
    ((execute_code env fs code_string input_df).1.isSuccess = true ↔
        (r.returncode = 0 ∧ (outputAfter fs r).isSome)) ∧
    (∀ c df2, outputAfter fs r = some c → env.read_csv c = .ok df2 →
        r.returncode = 0 →
        (execute_code env fs code_string input_df).1 = .success df2 r.stdout) ∧
    (¬ (r.returncode = 0 ∧ (outputAfter fs r).isSome) →
        (execute_code env fs code_string input_df).1 =
          .error (if r.stderr = "" then r.stdout else r.stderr)
            (some r.returncode)) := by
  rcases hw : r.writesOutput with _ | o
  · rcases hout : fs.outputFile with _ | content
    · by_cases hrc : r.returncode = 0 <;>
        simp [execute_code, h1, h2, h3, hw, hout, hrc, outputAfter,
          ExecResult.isSuccess]
    · by_cases hrc : r.returncode = 0
      · obtain ⟨df2, hdf2⟩ := hread content (by simp [outputAfter, hw, hout])
        simp [execute_code, h1, h2, h3, hw, hout, hrc, outputAfter, hdf2,
          ExecResult.isSuccess]
        intro c df2a hc hr
        rw [← hc, hdf2] at hr
        exact Except.ok.inj hr
      · simp [execute_code, h1, h2, h3, hw, hout, hrc, outputAfter,
          ExecResult.isSuccess]
  · by_cases hrc : r.returncode = 0
    · obtain ⟨df2, hdf2⟩ := hread o (by simp [outputAfter, hw])
      simp [execute_code, h1, h2, h3, hw, hrc, outputAfter, hdf2,
        ExecResult.isSuccess]
      intro c df2a hc hr
      rw [← hc, hdf2] at hr
      exact Except.ok.inj hr
    · simp [execute_code, h1, h2, h3, hw, hrc, outputAfter,
        ExecResult.isSuccess]

/-- Host environment for the C5 witness: every host-side step
succeeds, the child exits 0 and writes an output artifact. -/
def wEnvC5 : HostEnv Nat :=
  { to_csv := fun _ => .ok "incsv",
    write_script := fun _ => .ok (),
    run_subprocess := fun _ => .ok ⟨0, "out", "", some "odata"⟩,
    read_csv := fun _ => .ok 7,
    format_exc := fun m => "Traceback: " ++ m }

/-- Concrete instance of C5: exit code 0 with an artifact present is
classified success with the deserialised snapshot. -/
theorem C5_outcome_classification_witness :
    ((execute_code wEnvC5 ⟨none, none, none⟩ "code" 0).1.isSuccess = true ↔
        ((0 : Int) = 0 ∧ (outputAfter ⟨none, none, none⟩ ⟨0, "out", "", some "odata"⟩).isSome)) ∧
    (∀ c df2, outputAfter ⟨none, none, none⟩ ⟨0, "out", "", some "odata"⟩ = some c →
        wEnvC5.read_csv c = .ok df2 → (0 : Int) = 0 →
        (execute_code wEnvC5 ⟨none, none, none⟩ "code" 0).1 = .success df2 "out") ∧
    (¬ ((0 : Int) = 0 ∧ (outputAfter ⟨none, none, none⟩ ⟨0, "out", "", some "odata"⟩).isSome) →
        (execute_code wEnvC5 ⟨none, none, none⟩ "code" 0).1 =
          .error (if "" = "" then "out" else "") (some 0)) :=
  C5_outcome_classification wEnvC5 ⟨none, none, none⟩ "code" 0 "incsv"
    ⟨0, "out", "", some "odata"⟩ rfl rfl rfl (fun _ _ => ⟨7, rfl⟩)

/-- Claim C9: the output artifact is removed only by `cleanup`; an
invocation whose child exits 0 without writing `output.csv` while a
previous invocation's artifact is still there returns success with the
stale, deserialised artifact. -/
theorem C9_stale_artifact {DF : Type} (env : HostEnv DF) (fs : TempFS)
    (code_string : String) (input_df : DF) (stale csv : String)
    (r : SubRun) (df2 : DF)
    (hstale : fs.outputFile = some stale)
    (h1 : env.to_csv input_df = .ok csv)
    (h2 : env.write_script (fullScript "input.csv" "output.csv" code_string) = .ok ())
    (h3 : env.run_subprocess (fullScript "input.csv" "output.csv" code_string) = .ok r)
    (hrc : r.returncode = 0) (hw : r.writesOutput = none)
    (hread : env.read_csv stale = .ok df2) :
    execute_code env fs code_string input_df =
      (.success df2 r.stdout,
        { inputFile := some csv, outputFile := some stale,
          scriptFile := some (fullScript "input.csv" "output.csv" code_string) }) ∧
    (∀ (fs2 : TempFS) (c2 : String) (d2 : DF), fs2.outputFile.isSome →
        ((execute_code env fs2 c2 d2).2.outputFile).isSome) ∧
    cleanup (execute_code env fs code_string input_df).2 =
      { inputFile := none, outputFile := none, scriptFile := none } := by
  refine ⟨?_, fun fs2 c2 d2 h => execute_code_preserves_output env fs2 c2 d2 h, rfl⟩
  simp [execute_code, h1, h2, h3, hw, hrc, hstale, hread]

/-- Host environment for the C9 witness: the child exits 0 without
touching `output.csv`. -/
def wEnvC9 : HostEnv Nat :=
  { to_csv := fun _ => .ok "incsv",
    write_script := fun _ => .ok (),
    run_subprocess := fun _ => .ok ⟨0, "out", "", none⟩,
    read_csv := fun _ => .ok 9,
    format_exc := fun m => "Traceback: " ++ m }

/-- Concrete instance of C9: a stale artifact from a previous
invocation is silently deserialised as the new snapshot. -/
theorem C9_stale_artifact_witness :
    execute_code wEnvC9 ⟨none, some "stale", none⟩ "code" 0 =
      (.success 9 "out",
        { inputFile := some "incsv", outputFile := some "stale",
          scriptFile := some (fullScript "input.csv" "output.csv" "code") }) ∧
    (∀ (fs2 : TempFS) (c2 : String) (d2 : Nat), fs2.outputFile.isSome →
        ((execute_code wEnvC9 fs2 c2 d2).2.outputFile).isSome) ∧
    cleanup (execute_code wEnvC9 ⟨none, some "stale", none⟩ "code" 0).2 =
      { inputFile := none, outputFile := none, scriptFile := none } :=
  C9_stale_artifact wEnvC9 ⟨none, some "stale", none⟩ "code" 0 "stale" "incsv"
    ⟨0, "out", "", none⟩ 9 rfl rfl rfl rfl rfl rfl rfl

/-- Claim C10: a fault in any host-side step (serialisation, script
writing, process spawning, deserialisation) is caught and surfaces as
an error-shaped result whose traceback embeds the exception message
and the formatted traceback; `execute_code` itself is a total
function. -/
theorem C10_host_fault_returned {DF : Type} (env : HostEnv DF) (fs : TempFS)
    (code_string : String) (input_df : DF) (m : String)
    (h : firstFault env fs code_string input_df = some m) :
    (execute_code env fs code_string input_df).1 =
      .error ("Error in code execution process: " ++ m ++ "\n" ++
        env.format_exc m) none ∧
    ∃ pre post,
      "Error in code execution process: " ++ m ++ "\n" ++ env.format_exc m =
        pre ++ (m ++ post) := by
  refine ⟨?_, "Error in code execution process: ", "\n" ++ env.format_exc m,
    by simp [String.append_assoc]⟩
  rcases h1 : env.to_csv input_df with e | csv
  · simp [firstFault, h1] at h
    subst h
    simp [execute_code, h1, procError]
  rcases h2 : env.write_script (fullScript "input.csv" "output.csv" code_string)
    with e | u
  · simp [firstFault, h1, h2] at h
    subst h
    simp [execute_code, h1, h2, procError]
  rcases h3 : env.run_subprocess (fullScript "input.csv" "output.csv" code_string)
    with e | r
  · simp [firstFault, h1, h2, h3] at h
    subst h
    simp [execute_code, h1, h2, h3, procError]
  · simp only [firstFault, h1, h2, h3] at h
    rcases hw : r.writesOutput with _ | o
    · by_cases hrc : r.returncode = 0
      · rcases hout : fs.outputFile with _ | content
        · simp [hw, hrc, hout] at h
        · rcases hread : env.read_csv content with e | df2
          · simp [hw, hrc, hout, hread] at h
            subst h
            simp [execute_code, h1, h2, h3, hw, hrc, hout, hread, procError]
          · simp [hw, hrc, hout, hread] at h
      · simp [hw, hrc] at h
    · by_cases hrc : r.returncode = 0
      · rcases hread : env.read_csv o with e | df2
        · simp [hw, hrc, hread] at h
          subst h
          simp [execute_code, h1, h2, h3, hw, hrc, hread, procError]
        · simp [hw, hrc, hread] at h
      · simp [hw, hrc] at h

/-- Host environment for the C10 witness: serialisation raises. -/
def wEnvC10 : HostEnv Nat :=
  { to_csv := fun _ => .error "disk full",
    write_script := fun _ => .ok (),
    run_subprocess := fun _ => .ok ⟨0, "out", "", none⟩,
    read_csv := fun _ => .ok 0,
    format_exc := fun m => "Traceback: " ++ m }

/-- Concrete instance of C10: a raised `to_csv` fault comes back as an
error result embedding the message. -/
theorem C10_host_fault_returned_witness :
    (execute_code wEnvC10 ⟨none, none, none⟩ "code" 0).1 =
      .error ("Error in code execution process: " ++ "disk full" ++ "\n" ++
        wEnvC10.format_exc "disk full") none ∧
    ∃ pre post,
      "Error in code execution process: " ++ "disk full" ++ "\n" ++
          wEnvC10.format_exc "disk full" =
        pre ++ ("disk full" ++ post) :=
  C10_host_fault_returned wEnvC10 ⟨none, none, none⟩ "code" 0 "disk full" rfl

/-! Helper lemmas and claim theorems about the plan producer. -/

/-- A `firstInvalid` result of `none` means every parsed step carries
both an `id` and a `task` key. -/
theorem firstInvalid_eq_none (l : List DsAgent.RawStep) :
    DsAgent.firstInvalid l = none ↔
      ∀ s ∈ l, s.id.isSome ∧ s.task.isSome := by
  induction l with
  | nil => simp [DsAgent.firstInvalid]
  | cons s rest ih =>
    by_cases hs : s.id.isSome && s.task.isSome
    · rw [Bool.and_eq_true] at hs
      simp [DsAgent.firstInvalid, hs.1, hs.2, ih]
    · have hstep : DsAgent.firstInvalid (s :: rest) = some s := by
        simp only [DsAgent.firstInvalid, if_neg hs]
      constructor
      · intro hnone
        rw [hstep] at hnone
        cases hnone
      · intro hall
        rcases hall s (List.mem_cons_self s rest) with ⟨ha, hb⟩
        exact absurd (by simp [ha, hb]) hs

/-- Splitting the generic fallback message at the shared stem. -/
theorem errPlanSplit (x : String) :
    "Error generating plan: " ++ x =
      "Error generating plan" ++ (": " ++ x) := by
  rw [← String.append_assoc]
  congr 1

/-- Validity of a returned plan in the words of the spec: every task
has a numeric id, ids are unique within the plan, and every
description is a non-empty string. -/
def specValidPlan (p : List DsAgent.RawStep) : Prop :=
  (∀ s ∈ p, ∃ n : Int, s.id = some (.num n)) ∧
  (p.map (fun s => s.id)).Nodup ∧
  (∀ s ∈ p, ∃ t : String, s.task = some (.str t) ∧ t ≠ "")

/-- Claim C6 (amended): every plan returned by `generate_plan` is
either the parsed producer response, in which every step carries both
an `id` and a `task` key, or a single-task fallback plan whose task
text signals the failure — a malformed response is never silently
dropped.  (The source checks only key presence, not numeric ids,
uniqueness, or non-empty descriptions; see the counterexample.) -/
theorem C6_plan_validation (api : Except String String)
    (parseJson : String → Except String (List DsAgent.RawStep)) :
    (∃ content plan, api = .ok content ∧ parseJson content = .ok plan ∧
        (∀ s ∈ plan, s.id.isSome ∧ s.task.isSome) ∧
        DsAgent.generate_plan api parseJson = plan) ∨
    (∃ t, DsAgent.generate_plan api parseJson =
        [⟨some (.num 1), some (.str ("Error generating plan" ++ t))⟩]) := by
  rcases api with e | content
  · right
    refine ⟨": " ++ e, ?_⟩
    simp [DsAgent.generate_plan, DsAgent.fallbackExc, errPlanSplit]
  · rcases hp : parseJson content with e | plan
    · right
      refine ⟨". Please check the data profile and try again.", ?_⟩
      simp [DsAgent.generate_plan, DsAgent.fallbackJson, hp]
    · rcases hv : DsAgent.firstInvalid plan with _ | s
      · left
        exact ⟨content, plan, rfl, hp, (firstInvalid_eq_none plan).mp hv,
          by simp [DsAgent.generate_plan, hp, hv]⟩
      · right
        refine ⟨": " ++ ("Invalid step format in plan: " ++ DsAgent.stepRepr s), ?_⟩
        simp [DsAgent.generate_plan, DsAgent.fallbackExc, hp, hv, errPlanSplit]

/-- A parsed response the source accepts although it violates the
claimed validation: duplicate ids and an empty description. -/
def badPlanC6 : List DsAgent.RawStep :=
  [⟨some (.num 1), some (.str "")⟩, ⟨some (.num 1), some (.str "cast")⟩]

/-- Counterexample to C6 as stated: a parsed response with duplicate
ids and an empty description is returned unchanged (it is not replaced
by a fallback and it is not spec-valid). -/
theorem C6_counterexample :
    DsAgent.generate_plan (.ok "resp") (fun _ => .ok badPlanC6) = badPlanC6 ∧
    ¬ specValidPlan badPlanC6 ∧
    badPlanC6.length = 2 := by
  refine ⟨rfl, ?_, rfl⟩
  rintro ⟨-, hnd, -⟩
  simp [badPlanC6] at hnd

/-! Claim theorems about the execution loop. -/

open Orchestrator

/-- Claim C1: a task whose execution attempts all return Failure gets
exactly one ledger entry, with `final_status = failed`, the error text
of the last attempt (the error returned by the executor on the third
call, against the unchanged snapshot), and `attempts_used = 3`; the
DataFrame is unchanged and the loop proceeds to the next task of the
plan rather than aborting. -/
theorem C1_exhausted_task {DF : Type} (env : AgentEnv DF) (st : OrchState DF)
    (t : TaskItem) (rest : List TaskItem) (d : DF)
    (hdf : st.df = some d)
    (hgen : ∃ c, env.generate_code st.genCount t.task = .ok c)
    (hfail : ∀ i c, (env.execute_code i c d).isSuccess = false) :
    ∃ (code2 tb : String) (rc : Option Int),
      env.execute_code (st.execCount + 2) code2 d = .error tb rc ∧
      runTask env st t =
        { df := some d,
          log := st.log ++ [.execFailed t.id t.task code2 tb 3],
          execCount := st.execCount + 3, genCount := st.genCount + 1,
          fixCount := st.fixCount + 2 } ∧
      run_plan env st (t :: rest) = run_plan env (runTask env st t) rest := by
  obtain ⟨c0, hc0⟩ := hgen
  have h0 : runTask env st t =
      attemptLoop env t 3 0 c0 { st with genCount := st.genCount + 1 } := by
    simp [runTask, hc0]
  rcases hres0 : env.execute_code st.execCount c0 d with ⟨ndf, out⟩ | ⟨tb0, rc0⟩
  · have := hfail st.execCount c0
    rw [hres0] at this
    simp [ExecResult.isSuccess] at this
  obtain ⟨c1, hstep0⟩ := attemptLoop_retry env t 2 0 c0
    { st with genCount := st.genCount + 1 } d tb0 rc0 (by omega) hdf hres0
  rcases hres1 : env.execute_code (st.execCount + 1) c1 d with ⟨ndf, out⟩ | ⟨tb1, rc1⟩
  · have := hfail (st.execCount + 1) c1
    rw [hres1] at this
    simp [ExecResult.isSuccess] at this
  obtain ⟨c2, hstep1⟩ := attemptLoop_retry env t 1 1 c1
    { df := some d, log := st.log, execCount := st.execCount + 1,
      genCount := st.genCount + 1, fixCount := st.fixCount + 1 } d tb1 rc1
    (by omega) rfl hres1
  rcases hres2 : env.execute_code (st.execCount + 2) c2 d with ⟨ndf, out⟩ | ⟨tb2, rc2⟩
  · have := hfail (st.execCount + 2) c2
    rw [hres2] at this
    simp [ExecResult.isSuccess] at this
  have hfinal := attemptLoop_final_fail env t 0 c2
    { df := some d, log := st.log, execCount := st.execCount + 2,
      genCount := st.genCount + 1, fixCount := st.fixCount + 2 } d tb2 rc2
    rfl hres2
  refine ⟨c2, tb2, rc2, hres2, ?_, rfl⟩
  rw [h0, hstep0, hstep1, hfinal]

/-- Environment for the C1 witness: code generation succeeds, repair
succeeds, every execution attempt fails. -/
def wEnvC1 : AgentEnv Nat :=
  { generate_code := fun _ _ => .ok "c0",
    fix_code := fun _ _ _ => .ok "cfix",
    execute_code := fun _ _ _ => .error "tb" (some 1) }

/-- Concrete instance of C1: a two-task plan whose first task exhausts
its three attempts. -/
theorem C1_exhausted_task_witness :
    (⟨some 0, [], 0, 0, 0⟩ : OrchState Nat).df = some 0 ∧
    (∃ (code2 tb : String) (rc : Option Int),
      wEnvC1.execute_code (0 + 2) code2 0 = .error tb rc ∧
      runTask wEnvC1 ⟨some 0, [], 0, 0, 0⟩ ⟨1, "t"⟩ =
        { df := some 0,
          log := [] ++ [.execFailed 1 "t" code2 tb 3],
          execCount := 0 + 3, genCount := 0 + 1, fixCount := 0 + 2 } ∧
      run_plan wEnvC1 ⟨some 0, [], 0, 0, 0⟩ [⟨1, "t"⟩, ⟨2, "u"⟩] =
        run_plan wEnvC1 (runTask wEnvC1 ⟨some 0, [], 0, 0, 0⟩ ⟨1, "t"⟩) [⟨2, "u"⟩]) :=
  ⟨rfl, C1_exhausted_task wEnvC1 ⟨some 0, [], 0, 0, 0⟩ ⟨1, "t"⟩ [⟨2, "u"⟩] 0
    rfl ⟨"c0", rfl⟩ (fun _ _ => rfl)⟩

/-- Claim C2: a task whose single ledger entry is failed leaves the
StateManager's DataFrame exactly as it was when the task started, so
the next task reads the same snapshot. -/
theorem C2_failed_task_preserves_df {DF : Type} (env : AgentEnv DF)
    (st : OrchState DF) (t : TaskItem) (e : LogEntry)
    (hlog : (runTask env st t).log = st.log ++ [e])
    (hfailed : e.status = .failed) :
    (runTask env st t).df = st.df := by
  rcases runTask_appends_one env st t with ⟨e0, hlog0, hdf0, _⟩
  rw [hlog0] at hlog
  have he : e0 = e := by simpa using hlog
  subst he
  rcases hdf0 with hdf0 | hdf0
  · exact hdf0
  · rw [hfailed] at hdf0; cases hdf0

/-- Environment for the C2 witness: generation succeeds, repair
succeeds, execution always fails. -/
def wEnvC2 : AgentEnv Nat :=
  { generate_code := fun _ _ => .ok "c",
    fix_code := fun _ _ _ => .ok "f",
    execute_code := fun _ _ _ => .error "tb" (some 1) }

/-- Concrete instance of C2: the failed task's state still holds the
initial snapshot. -/
theorem C2_failed_task_preserves_df_witness :
    (runTask wEnvC2 ⟨some 7, [], 0, 0, 0⟩ ⟨1, "t"⟩).log =
      [] ++ [.execFailed 1 "t" "f" "tb" 3] ∧
    (LogEntry.execFailed 1 "t" "f" "tb" 3).status = .failed ∧
    (runTask wEnvC2 ⟨some 7, [], 0, 0, 0⟩ ⟨1, "t"⟩).df =
      (⟨some 7, [], 0, 0, 0⟩ : OrchState Nat).df :=
  ⟨rfl, rfl,
    C2_failed_task_preserves_df wEnvC2 ⟨some 7, [], 0, 0, 0⟩ ⟨1, "t"⟩
      (.execFailed 1 "t" "f" "tb" 3) rfl rfl⟩

/-- Claim C3 (amended): when the Code Producer raises, the loop
records one entry with status failed and stage `code_generation`,
performs zero executor invocations for the task, and leaves the
DataFrame untouched.  (The original claim also covered an empty
generated-code result; see the counterexample.) -/
theorem C3_generation_exception {DF : Type} (env : AgentEnv DF)
    (st : OrchState DF) (t : TaskItem) (m : String)
    (hgen : env.generate_code st.genCount t.task = .error m) :
    runTask env st t =
      { st with
          genCount := st.genCount + 1,
          log := st.log ++
            [.genFailed t.id t.task ("Error generating code: " ++ m)] } ∧
    (LogEntry.genFailed t.id t.task ("Error generating code: " ++ m)).status
      = .failed ∧
    (LogEntry.genFailed t.id t.task ("Error generating code: " ++ m)).stage
      = some "code_generation" ∧
    (runTask env st t).execCount = st.execCount := by
  refine ⟨by simp [runTask, hgen], rfl, rfl, by simp [runTask, hgen]⟩

/-- Environment for the C3 witness: code generation raises. -/
def wEnvC3 : AgentEnv Nat :=
  { generate_code := fun _ _ => .error "api down",
    fix_code := fun _ _ _ => .ok "f",
    execute_code := fun _ _ _ => .error "tb" (some 1) }

/-- Concrete instance of C3 (amended): a raising producer yields a
`code_generation` failure entry and no executor call. -/
theorem C3_generation_exception_witness :
    runTask wEnvC3 ⟨some 0, [], 0, 0, 0⟩ ⟨1, "t"⟩ =
      { df := some 0,
        log := [] ++ [.genFailed 1 "t" ("Error generating code: " ++ "api down")],
        execCount := 0, genCount := 0 + 1, fixCount := 0 } ∧
    (LogEntry.genFailed 1 "t" ("Error generating code: " ++ "api down")).status
      = .failed ∧
    (LogEntry.genFailed 1 "t" ("Error generating code: " ++ "api down")).stage
      = some "code_generation" ∧
    (runTask wEnvC3 ⟨some 0, [], 0, 0, 0⟩ ⟨1, "t"⟩).execCount = 0 :=
  C3_generation_exception wEnvC3 ⟨some 0, [], 0, 0, 0⟩ ⟨1, "t"⟩ "api down" rfl

/-- Environment refuting C3 as originally stated: the Code Producer
returns an empty result, which the orchestrator does not treat as a
producer failure. -/
def cEnvC3 : AgentEnv Nat :=
  { generate_code := fun _ _ => .ok "",
    fix_code := fun _ _ _ => .error "down",
    execute_code := fun _ _ _ =>
      .error "NameError: transform_data is not defined" (some 1) }

/-- Counterexample to C3 as stated: with an empty generated-code
result the loop performs three executor invocations (not zero) and the
task's entry is an execution-retry failure with no
`code_generation` stage. -/
theorem C3_counterexample :
    cEnvC3.generate_code 0 "t" = .ok "" ∧
    (runTask cEnvC3 ⟨some 0, [], 0, 0, 0⟩ ⟨1, "t"⟩).execCount = 3 ∧
    (runTask cEnvC3 ⟨some 0, [], 0, 0, 0⟩ ⟨1, "t"⟩).log =
      [.execFailed 1 "t" "" "NameError: transform_data is not defined" 3] ∧
    (LogEntry.execFailed 1 "t" ""
        "NameError: transform_data is not defined" 3).stage = none :=
  ⟨rfl, rfl, rfl, rfl⟩

/-- Claim C4 (amended): in a run started with an empty log, every
ledger entry that records an attempt count records one in `[1, 3]`,
and a failed entry that records one records exactly 3; entries failed
at code generation or for a missing DataFrame record none. -/
theorem C4_attempts_range {DF : Type} (env : AgentEnv DF) (st : OrchState DF)
    (plan : List TaskItem) (e : LogEntry) (m : Nat)
    (hst : st.log = [])
    (he : e ∈ (run_plan env st plan).log)
    (hm : e.attemptsUsed = some m) :
    1 ≤ m ∧ m ≤ 3 ∧ (e.status = .failed → m = 3) := by
  rcases run_plan_entries env plan st e he with hmem | hok
  · rw [hst] at hmem; cases hmem
  · exact hok m hm

/-- Environment for the C4 witness: a task that succeeds on its first
attempt. -/
def wEnvC4 : AgentEnv Nat :=
  { generate_code := fun _ _ => .ok "c",
    fix_code := fun _ _ _ => .ok "f",
    execute_code := fun _ _ d => .success (d + 1) "out" }

/-- Concrete instance of C4: the success entry of a one-task plan
records attempt 1, which lies in `[1, 3]`. -/
theorem C4_attempts_range_witness :
    (⟨some 0, [], 0, 0, 0⟩ : OrchState Nat).log = [] ∧
    LogEntry.success 1 "t" "c" 1 ∈
      (run_plan wEnvC4 ⟨some 0, [], 0, 0, 0⟩ [⟨1, "t"⟩]).log ∧
    (LogEntry.success 1 "t" "c" 1).attemptsUsed = some 1 ∧
    (1 ≤ 1 ∧ 1 ≤ 3 ∧ ((LogEntry.success 1 "t" "c" 1).status = .failed → 1 = 3)) :=
  ⟨rfl, by decide, rfl,
    C4_attempts_range wEnvC4 ⟨some 0, [], 0, 0, 0⟩ [⟨1, "t"⟩]
      (.success 1 "t" "c" 1) 1 rfl (by decide) rfl⟩

/-- Environment refuting C4 as originally stated: code generation
raises, so the task's failed entry records no attempt count at all. -/
def cEnvC4 : AgentEnv Nat :=
  { generate_code := fun _ _ => .error "api down",
    fix_code := fun _ _ _ => .ok "f",
    execute_code := fun _ _ _ => .error "tb" (some 1) }

/-- Counterexample to C4 as stated: a ledger entry with
`final_status = failed` whose `attempts_used` is absent (in particular
not 3 and not in `[1, 3]`). -/
theorem C4_counterexample :
    (run_plan cEnvC4 ⟨some 0, [], 0, 0, 0⟩ [⟨1, "t"⟩]).log =
      [.genFailed 1 "t" "Error generating code: api down"] ∧
    (LogEntry.genFailed 1 "t" "Error generating code: api down").status
      = .failed ∧
    (LogEntry.genFailed 1 "t" "Error generating code: api down").attemptsUsed
      = none :=
  ⟨rfl, rfl, rfl⟩

/-- Claim C7: when an execution attempt fails before the final attempt
and the repair call itself raises, the retry loop still proceeds to
the next attempt with the previous code unchanged; only the subprocess
and repair call counters advance. -/
theorem C7_repair_failure_keeps_code {DF : Type} (env : AgentEnv DF)
    (t : TaskItem) (fuel attempt : Nat) (code : String) (st : OrchState DF)
    (d : DF) (tb m : String) (rc : Option Int)
    (hlt : attempt < 2) (hdf : st.df = some d)
    (hres : env.execute_code st.execCount code d = .error tb rc)
    (hfix : env.fix_code st.fixCount code tb = .error m) :
    attemptLoop env t (fuel + 1) attempt code st =
      attemptLoop env t fuel (attempt + 1) code
        { df := some d, log := st.log, execCount := st.execCount + 1,
          genCount := st.genCount, fixCount := st.fixCount + 1 } := by
  have hatt : attempt ≠ 2 := by omega
  simp [attemptLoop, hdf, hres, hfix, hlt, hatt]

/-- Environment for the C7 witness: execution fails and the repair
call raises. -/
def wEnvC7 : AgentEnv Nat :=
  { generate_code := fun _ _ => .ok "c",
    fix_code := fun _ _ _ => .error "repair down",
    execute_code := fun _ _ _ => .error "tb" (some 1) }

/-- Concrete instance of C7: after a failed first attempt with a
failing repair call, the loop re-enters with the same code. -/
theorem C7_repair_failure_keeps_code_witness :
    attemptLoop wEnvC7 ⟨1, "t"⟩ 3 0 "c" ⟨some 5, [], 0, 0, 0⟩ =
      attemptLoop wEnvC7 ⟨1, "t"⟩ 2 1 "c"
        { df := some 5, log := [], execCount := 0 + 1,
          genCount := 0, fixCount := 0 + 1 } :=
  C7_repair_failure_keeps_code wEnvC7 ⟨1, "t"⟩ 2 0 "c" ⟨some 5, [], 0, 0, 0⟩
    5 "tb" "repair down" (some 1) (by omega) rfl rfl rfl

/-- Claim C8: a plan run from an empty log returns a ledger with
exactly one entry per task of the plan. -/
theorem C8_ledger_length {DF : Type} (env : AgentEnv DF) (st : OrchState DF)
    (plan : List TaskItem) (hst : st.log = []) :
    (run_plan env st plan).log.length = plan.length := by
  rw [run_plan_log_length env plan st, hst]
  simp

/-- Environment for the C8 witness: a mix of outcomes — generation
raising on the second call, execution failing on later calls. -/
def wEnvC8 : AgentEnv Nat :=
  { generate_code := fun i _ => if i = 0 then .ok "c" else .error "api down",
    fix_code := fun _ _ _ => .ok "f",
    execute_code := fun i _ d => if i = 0 then .success d "out" else .error "tb" (some 1) }

/-- Concrete instance of C8: a three-task plan (one success, one
generation failure, one execution exhaustion) yields exactly three
ledger entries. -/
theorem C8_ledger_length_witness :
    (⟨some 0, [], 0, 0, 0⟩ : OrchState Nat).log = [] ∧
    (run_plan wEnvC8 ⟨some 0, [], 0, 0, 0⟩ [⟨1, "a"⟩, ⟨2, "b"⟩, ⟨3, "c"⟩]).log.length
      = 3 :=
  ⟨rfl, C8_ledger_length wEnvC8 ⟨some 0, [], 0, 0, 0⟩
    [⟨1, "a"⟩, ⟨2, "b"⟩, ⟨3, "c"⟩] rfl⟩

end AutoDS
